import Mathlib

/-!
Shallow embedding of the C4 diagram generation engine (`C4Service`) of the
SpecForge repository: extraction fallback, the three level builders with
their requirement-traceability heuristic, the Mermaid renderers, and the
diagram store retrieval.  Structures and functions mirror the TypeScript
source; JS objects used as maps become association lists, `undefined`
becomes `Option`, and thrown exceptions become `Except` errors.
-/

/-- Input requirement record: `{id, type, title, description, rationale?}`. -/
structure Requirement where
  id : String
  rtype : String
  title : String
  description : String
  rationale : Option String := none
deriving Repr, DecidableEq

/-- Mirror of `ArchitecturePerson` of the extraction interface. -/
structure ArchitecturePerson where
  id : String
  name : String
  role : String
  description : String
  interactions : List String
deriving Repr, DecidableEq

/-- Mirror of `ArchitectureExternalSystem` of the extraction interface. -/
structure ArchitectureExternalSystem where
  id : String
  name : String
  type : String
  description : String
  protocol : Option String := none
  dataFormat : Option String := none
deriving Repr, DecidableEq

/-- Mirror of `ArchitectureContainer` of the extraction interface (the optional
`exposes`/`stores`/`nonFunctional` metadata is unused by every builder). -/
structure ArchitectureContainer where
  id : String
  name : String
  type : String
  technology : String
  description : String
  responsibilities : List String
  dependencies : Option (List String) := none
deriving Repr, DecidableEq

/-- Mirror of `ArchitectureComponent` of the extraction interface. -/
structure ArchitectureComponent where
  id : String
  name : String
  type : String
  technology : String
  description : String
  capabilities : List String
  dependencies : List String := []
deriving Repr, DecidableEq

/-- Mirror of `ArchitectureRelationship` of the extraction interface. -/
structure ArchitectureRelationship where
  fromId : String
  toId : String
  label : String
  protocol : Option String := none
  dataFlow : Option String := none
  isAsync : Option Bool := none
  pattern : Option String := none
deriving Repr, DecidableEq

/-- The `system` object inside `level1_context`. -/
structure ArchSystem where
  name : String
  description : String
  scope : String
deriving Repr, DecidableEq

/-- The `level1_context` of `ExtractedArchitecture`. -/
structure Level1Context where
  system : ArchSystem
  people : List ArchitecturePerson
  external_systems : List ArchitectureExternalSystem
  relationships : List ArchitectureRelationship
deriving Repr, DecidableEq

/-- Structure `ExtractedArchitecture`: the typed shape the builders consume.  The two
JS object maps keyed by container id become association lists in key order
(JS object keys are unique; theorems that depend on that take a `Nodup`
hypothesis on the keys). -/
structure ExtractedArchitecture where
  level1_context : Level1Context
  level2_containers : List ArchitectureContainer
  level2_relationships : List ArchitectureRelationship
  level3_components : List (String × List ArchitectureComponent)
  level3_relationships : List (String × List ArchitectureRelationship)
deriving Repr, DecidableEq

/-- Lookup `arch.level3_components[containerId]` on an association list: first
binding wins, absent key gives `none` (JS `undefined`). -/
def alistLookup {α : Type} (m : List (String × α)) (k : String) : Option α :=
  (m.find? (fun p => p.1 == k)).map Prod.snd

/-- Element kind union `'person' | 'system' | 'container' | 'component'`. -/
inductive ElemType where
  | person
  | system
  | container
  | component
deriving Repr, DecidableEq

/-- Diagram kind union `'context' | 'container' | 'component'`. -/
inductive DiagType where
  | context
  | container
  | component
deriving Repr, DecidableEq

/-- Mirror of `C4Element`. -/
structure C4Element where
  id : String
  type : ElemType
  name : String
  description : String
  technology : Option String := none
  requirements : List String
  children : Option (List String) := none
deriving Repr, DecidableEq

/-- Mirror of `C4Relationship`. -/
structure C4Relationship where
  fromId : String
  toId : String
  label : String
  technology : Option String := none
deriving Repr, DecidableEq

/-- Mirror of `C4Diagram`. -/
structure C4Diagram where
  id : String
  level : Nat
  type : DiagType
  title : String
  description : String
  mermaidCode : String
  elements : List C4Element
  relationships : List C4Relationship
  requirementReferences : List String
  generatedAt : String
  parentId : Option String := none
deriving Repr, DecidableEq

/-- Lower-cased character sequence of a string (JS `s.toLowerCase()`,
restricted to the ASCII range the source data uses). -/
def lowerChars (s : String) : List Char :=
  s.data.map Char.toLower

/-- JS `hay.toLowerCase().includes(needle.toLowerCase())`: case-insensitive
substring containment. -/
def strIncludes (hay needle : String) : Bool :=
  decide (lowerChars needle <:+: lowerChars hay)

/-- The traceability test the source applies to one keyword:
`r.title.toLowerCase().includes(k.toLowerCase()) ||
 r.description.toLowerCase().includes(k.toLowerCase())`. -/
def reqMatchesKeyword (r : Requirement) (k : String) : Bool :=
  strIncludes r.title k || strIncludes r.description k

/-- JS `a || b` on two optional strings (`rel.protocol || rel.dataFlow`):
an empty string is falsy. -/
def jsOrOpt (a b : Option String) : Option String :=
  match a with
  | some s => if s = "" then b else some s
  | none => b

/-- JS `a || d` defaulting an optional string (`el.technology || 'Technology'`). -/
def jsOrStr (a : Option String) (d : String) : String :=
  match a with
  | some s => if s = "" then d else s
  | none => d

/-- JS `el.technology ? ", \"tech\"" : ''` segment used by every renderer. -/
def techSeg (t : Option String) : String :=
  match t with
  | some s => if s = "" then ("") else (", \"") ++ s ++ "\""
  | none => ""

/-- Mirror of `generateMermaidLevel1`. -/
def generateMermaidLevel1 (elements : List C4Element)
    (relationships : List C4Relationship) : String :=
  let header := "C4Context\n  title System Context Diagram\n\n"
  let withMain :=
    match elements.find? (fun e => e.type == ElemType.system && e.id == "main-system") with
    | some ms =>
        header ++ "  System(" ++ ms.id ++ ", \"" ++ ms.name ++ "\", \""
          ++ ms.description ++ "\")\n\n"
    | none => header
  let withPeople := (elements.filter (fun e => e.type == ElemType.person)).foldl
    (fun acc el =>
      acc ++ "  Person(" ++ el.id ++ ", \"" ++ el.name ++ "\", \""
        ++ el.description ++ "\")\n") withMain
  let withExt := (elements.filter
      (fun e => e.type == ElemType.system && e.id != "main-system")).foldl
    (fun acc el =>
      acc ++ "  System_Ext(" ++ el.id ++ ", \"" ++ el.name ++ "\", \""
        ++ el.description ++ "\"" ++ techSeg el.technology ++ ")\n") withPeople
  relationships.foldl
    (fun acc rel =>
      acc ++ "  Rel(" ++ rel.fromId ++ ", " ++ rel.toId ++ ", \"" ++ rel.label
        ++ "\"" ++ techSeg rel.technology ++ ")\n") (withExt ++ "\n")

/-- Mirror of `generateMermaidLevel2`. -/
def generateMermaidLevel2 (elements : List C4Element)
    (relationships : List C4Relationship) : String :=
  let header := "C4Container\n  title Container Diagram\n\n  System_Boundary(system, \"System\") \x7b\n"
  let withContainers := (elements.filter (fun e => e.type == ElemType.container)).foldl
    (fun acc el =>
      acc ++ "    Container(" ++ el.id ++ ", \"" ++ el.name ++ "\", \""
        ++ jsOrStr el.technology ("Technology") ++ "\", \"" ++ el.description ++ "\")\n")
    header
  let withExt := (elements.filter (fun e => e.type == ElemType.system)).foldl
    (fun acc el =>
      acc ++ "  System_Ext(" ++ el.id ++ ", \"" ++ el.name ++ "\", \""
        ++ el.description ++ "\"" ++ techSeg el.technology ++ ")\n")
    (withContainers ++ "  \x7d\n\n")
  relationships.foldl
    (fun acc rel =>
      acc ++ "  Rel(" ++ rel.fromId ++ ", " ++ rel.toId ++ ", \"" ++ rel.label
        ++ "\"" ++ techSeg rel.technology ++ ")\n") (withExt ++ "\n")

/-- Mirror of `generateMermaidLevel3`. -/
def generateMermaidLevel3 (containerName : String) (elements : List C4Element)
    (relationships : List C4Relationship) : String :=
  let header := "C4Component\n  title Component Diagram - " ++ containerName
    ++ "\n\n  Container_Boundary(container, \"" ++ containerName ++ "\") \x7b\n"
  let withComponents := elements.foldl
    (fun acc el =>
      acc ++ "    Component(" ++ el.id ++ ", \"" ++ el.name ++ "\", \""
        ++ jsOrStr el.technology ("Component") ++ "\", \"" ++ el.description ++ "\")\n")
    header
  relationships.foldl
    (fun acc rel =>
      acc ++ "  Rel(" ++ rel.fromId ++ ", " ++ rel.toId ++ ", \"" ++ rel.label
        ++ "\"" ++ techSeg rel.technology ++ ")\n") (withComponents ++ "  \x7d\n\n")

/-- Mirror of `getFallbackArchitecture`: the fixed fallback; the `requirements`
argument of the source method is unused by its body. -/
def getFallbackArchitecture (_requirements : List Requirement) : ExtractedArchitecture :=
  { level1_context :=
      { system :=
          { name := "System"
            description := "Main system based on requirements"
            scope := "To be defined" }
        people :=
          [ { id := "user"
              name := "User"
              role := "End User"
              description := "Interacts with the system"
              interactions := ["use system"] } ]
        external_systems := []
        relationships :=
          [ { fromId := "user", toId := "system", label := "Uses"
              protocol := some ("HTTPS") } ] }
    level2_containers :=
      [ { id := "webapp"
          name := "Web Application"
          type := "WebApp"
          technology := "Web Browser"
          description := "User interface"
          responsibilities := ["Display UI", "Handle user input"]
          dependencies := some ["api"] }
      , { id := "api"
          name := "API"
          type := "API"
          technology := "REST API"
          description := "Backend API"
          responsibilities := ["Business logic", "Data access"]
          dependencies := some [] } ]
    level2_relationships :=
      [ { fromId := "webapp", toId := "api", label := "Makes API calls"
          protocol := some ("HTTPS") } ]
    level3_components := []
    level3_relationships := [] }

/-- The synthesized Level-1 system element (`systemId = 'main-system'`):
associated with every input requirement id and linked to all containers. -/
def mainSystemElement (arch : ExtractedArchitecture)
    (requirements : List Requirement) : C4Element :=
  { id := "main-system"
    type := ElemType.system
    name := arch.level1_context.system.name
    description := arch.level1_context.system.description
    technology := none
    requirements := requirements.map Requirement.id
    children := some (arch.level2_containers.map ArchitectureContainer.id) }

/-- Level-1 element for one `people[]` entry. -/
def personElement (person : ArchitecturePerson) : C4Element :=
  { id := person.id
    type := ElemType.person
    name := person.name
    description := person.role ++ ": " ++ person.description
    technology := none
    requirements := []
    children := none }

/-- Element for one external system (the same record shape is pushed by
`buildLevel1Diagram` and `buildLevel2Diagrams`). -/
def externalSystemElement (sys : ArchitectureExternalSystem) : C4Element :=
  { id := sys.id
    type := ElemType.system
    name := sys.name
    description := sys.description
    technology := sys.protocol
    requirements := []
    children := none }

/-- Level-1 relationship: `to` rewritten from the `'system'` placeholder to
the synthesized system id, `technology` from `protocol`. -/
def level1Relationship (rel : ArchitectureRelationship) : C4Relationship :=
  { fromId := rel.fromId
    toId := if rel.toId = "system" then ("main-system") else rel.toId
    label := rel.label
    technology := rel.protocol }

/-- Mirror of `buildLevel1Diagram`.  The run timestamp `new Date().toISOString()` is
threaded in as `now`. -/
def buildLevel1Diagram (arch : ExtractedArchitecture) (requirements : List Requirement)
    (now : String) : C4Diagram :=
  let elements := mainSystemElement arch requirements ::
    (arch.level1_context.people.map personElement ++
      arch.level1_context.external_systems.map externalSystemElement)
  let relationships := arch.level1_context.relationships.map level1Relationship
  { id := "level1-context"
    level := 1
    type := DiagType.context
    title := "System Context Diagram"
    description := arch.level1_context.system.scope
    mermaidCode := generateMermaidLevel1 elements relationships
    elements := elements
    relationships := relationships
    requirementReferences := requirements.map Requirement.id
    generatedAt := now
    parentId := none }

/-- The requirement ids a container element receives: requirements whose
title or description contains (case-insensitively) one of the container's
responsibilities. -/
def containerRequirements (requirements : List Requirement)
    (container : ArchitectureContainer) : List String :=
  (requirements.filter (fun r =>
    container.responsibilities.any (fun resp => reqMatchesKeyword r resp))).map
    Requirement.id

/-- Level-2 element for one container: traceability against its
responsibilities, children from the component map
(`arch.level3_components[container.id]?.map(c => c.id) || []`). -/
def containerElement (arch : ExtractedArchitecture) (requirements : List Requirement)
    (container : ArchitectureContainer) : C4Element :=
  { id := container.id
    type := ElemType.container
    name := container.name
    description := container.description
    technology := some container.technology
    requirements := containerRequirements requirements container
    children := some
      (((alistLookup arch.level3_components container.id).map
        (fun comps => comps.map ArchitectureComponent.id)).getD []) }

/-- Whether an id occurs as either endpoint of a Level-2 relationship
(`arch.level2_relationships.some(r => r.from === sys.id || r.to === sys.id)`). -/
def isLevel2Endpoint (arch : ExtractedArchitecture) (sysId : String) : Bool :=
  arch.level2_relationships.any (fun r => r.fromId == sysId || r.toId == sysId)

/-- Level-2 relationship: `technology: rel.protocol || rel.dataFlow`. -/
def level2Relationship (rel : ArchitectureRelationship) : C4Relationship :=
  { fromId := rel.fromId
    toId := rel.toId
    label := rel.label
    technology := jsOrOpt rel.protocol rel.dataFlow }

/-- Mirror of `buildLevel2Diagrams`. -/
def buildLevel2Diagrams (arch : ExtractedArchitecture) (requirements : List Requirement)
    (now : String) : List C4Diagram :=
  let elements :=
    arch.level2_containers.map (containerElement arch requirements) ++
      (arch.level1_context.external_systems.filter
        (fun sys => isLevel2Endpoint arch sys.id)).map externalSystemElement
  let relationships := arch.level2_relationships.map level2Relationship
  [ { id := "level2-containers"
      level := 2
      type := DiagType.container
      title := "Container Diagram"
      description := "Deployable units and their interactions"
      mermaidCode := generateMermaidLevel2 elements relationships
      elements := elements
      relationships := relationships
      requirementReferences := requirements.map Requirement.id
      generatedAt := now
      parentId := some ("main-system") } ]

/-- The requirement ids a component element receives: requirements whose
title or description contains (case-insensitively) one of the component's
capabilities. -/
def componentRequirements (requirements : List Requirement)
    (comp : ArchitectureComponent) : List String :=
  (requirements.filter (fun r =>
    comp.capabilities.any (fun cap => reqMatchesKeyword r cap))).map Requirement.id

/-- Level-3 element for one component. -/
def componentElement (requirements : List Requirement)
    (comp : ArchitectureComponent) : C4Element :=
  { id := comp.id
    type := ElemType.component
    name := comp.name
    description := comp.description
    technology := some comp.technology
    requirements := componentRequirements requirements comp
    children := none }

/-- Level-3 relationship: `technology: rel.pattern`. -/
def level3Relationship (rel : ArchitectureRelationship) : C4Relationship :=
  { fromId := rel.fromId
    toId := rel.toId
    label := rel.label
    technology := rel.pattern }

/-- The Level-3 diagram built for one qualifying component-map entry. -/
def level3DiagramFor (arch : ExtractedArchitecture) (requirements : List Requirement)
    (now : String) (containerId : String) (components : List ArchitectureComponent)
    (container : ArchitectureContainer) : C4Diagram :=
  let elements := components.map (componentElement requirements)
  let relationships :=
    ((alistLookup arch.level3_relationships containerId).getD []).map level3Relationship
  { id := "level3-" ++ containerId
    level := 3
    type := DiagType.component
    title := "Component Diagram - " ++ container.name
    description := "Internal components of " ++ container.name
    mermaidCode := generateMermaidLevel3 container.name elements relationships
    elements := elements
    relationships := relationships
    requirementReferences := (requirements.filter (fun r =>
      elements.any (fun e => e.requirements.contains r.id))).map Requirement.id
    generatedAt := now
    parentId := some containerId }

/-- Mirror of `buildLevel3Diagrams`: one diagram per `level3_components` key whose
component list is non-empty and whose container id is declared in
`level2_containers`; other keys are silently skipped. -/
def buildLevel3Diagrams (arch : ExtractedArchitecture) (requirements : List Requirement)
    (now : String) : List C4Diagram :=
  arch.level3_components.filterMap (fun entry =>
    if entry.2.isEmpty then none
    else
      match arch.level2_containers.find? (fun c => c.id == entry.1) with
      | none => none
      | some container =>
        some (level3DiagramFor arch requirements now entry.1 entry.2 container))

/-- The `level1_context` member of a parsed-but-unchecked extraction
response; each object/array member may be absent (`undefined`).  Accessing
a member of an absent object throws in the source, which the embedding
surfaces through `rawToArch`. -/
structure RawLevel1Context where
  system : Option ArchSystem := none
  people : Option (List ArchitecturePerson) := none
  external_systems : Option (List ArchitectureExternalSystem) := none
  relationships : Option (List ArchitectureRelationship) := none
deriving Repr, DecidableEq

/-- A parsed extraction response as `JSON.parse` hands it back: the cast to
`ExtractedArchitecture` is unchecked, so every field may be absent. -/
structure RawExtracted where
  level1_context : Option RawLevel1Context := none
  level2_containers : Option (List ArchitectureContainer) := none
  level2_relationships : Option (List ArchitectureRelationship) := none
  level3_components : Option (List (String × List ArchitectureComponent)) := none
  level3_relationships : Option (List (String × List ArchitectureRelationship)) := none
deriving Repr, DecidableEq

/-- View a complete architecture as a raw response (every field present). -/
def rawOfArch (a : ExtractedArchitecture) : RawExtracted :=
  { level1_context := some
      { system := some a.level1_context.system
        people := some a.level1_context.people
        external_systems := some a.level1_context.external_systems
        relationships := some a.level1_context.relationships }
    level2_containers := some a.level2_containers
    level2_relationships := some a.level2_relationships
    level3_components := some a.level3_components
    level3_relationships := some a.level3_relationships }

/-- The member accesses the builders perform unconditionally on a raw
response: `level1_context` with its four members, `level2_containers`,
`level2_relationships` and `level3_components` must be present or a
`TypeError` is thrown; an absent `level3_relationships` map is only
dereferenced for a container that actually yields a Level-3 diagram
(`rawLevel3RelsNeeded`), otherwise it never matters and is read as empty. -/
def rawToArch (raw : RawExtracted) : Option ExtractedArchitecture := do
  let l1 ← raw.level1_context
  let system ← l1.system
  let people ← l1.people
  let external_systems ← l1.external_systems
  let relationships ← l1.relationships
  let level2_containers ← raw.level2_containers
  let level2_relationships ← raw.level2_relationships
  let level3_components ← raw.level3_components
  pure
    { level1_context :=
        { system := system
          people := people
          external_systems := external_systems
          relationships := relationships }
      level2_containers := level2_containers
      level2_relationships := level2_relationships
      level3_components := level3_components
      level3_relationships := raw.level3_relationships.getD [] }

/-- Whether `buildLevel3Diagrams` dereferences `arch.level3_relationships`:
true when some component-map entry is non-empty and its key is a declared
container, i.e. when at least one Level-3 diagram is produced. -/
def rawLevel3RelsNeeded (arch : ExtractedArchitecture) : Bool :=
  arch.level3_components.any (fun entry =>
    !entry.2.isEmpty && arch.level2_containers.any (fun c => c.id == entry.1))

/-- Outcome of the try-block around the OpenAI call in
`extractArchitecture`: `failure` is any thrown error (request error,
response that fails `JSON.parse`), `success raw` is a response that parsed
as JSON (cast unchecked). -/
inductive AdapterOutcome where
  | failure
  | success (raw : RawExtracted)
deriving Repr, DecidableEq

/-- Mirror of `extractArchitecture`: a thrown error is replaced by the fallback
architecture; a parsed response is returned as-is with no structural
validation. -/
def extractArchitecture (outcome : AdapterOutcome)
    (requirements : List Requirement) : RawExtracted :=
  match outcome with
  | AdapterOutcome.failure => rawOfArch (getFallbackArchitecture requirements)
  | AdapterOutcome.success raw => raw

/-- Mirror of `generateC4Diagrams` (persistence elided): extraction, then the three
builders.  A raw response missing a member the builders dereference makes
the run throw (`Except.error`), mirroring the uncaught `TypeError` of the
source; there is no validation of the requirement list. -/
def generateC4Diagrams (outcome : AdapterOutcome) (requirements : List Requirement)
    (now : String) : Except String (List C4Diagram) :=
  let raw := extractArchitecture outcome requirements
  match rawToArch raw with
  | none => Except.error ("TypeError")
  | some arch =>
    if raw.level3_relationships.isNone && rawLevel3RelsNeeded arch then
      Except.error ("TypeError")
    else
      Except.ok
        (buildLevel1Diagram arch requirements now ::
          (buildLevel2Diagrams arch requirements now ++
            buildLevel3Diagrams arch requirements now))

/-- One entry of the persisted `index.json` `diagrams` array. -/
structure IndexEntry where
  id : String
  level : Nat
  type : DiagType
  title : String
  parentId : Option String := none
deriving Repr, DecidableEq

/-- The on-disk state of one project's `c4-diagrams` directory: whether the
directory exists, the index file (absent or its entry list), and the
diagram bodies keyed by diagram id (`<id>.json`). -/
structure C4Store where
  dirExists : Bool
  index : Option (List IndexEntry)
  bodies : List (String × C4Diagram)
deriving Repr, DecidableEq

/-- Mirror of `getDiagrams`: missing directory or missing index gives `[]`; otherwise
each indexed id whose body file exists is loaded, and an indexed id with no
body file is skipped. -/
def getDiagrams (st : C4Store) : List C4Diagram :=
  if st.dirExists = false then []
  else
    match st.index with
    | none => []
    | some entries => entries.filterMap (fun e => alistLookup st.bodies e.id)

/-- Modelled from the spec (§4.6 wording), for comparison with the source's
`reqMatchesKeyword`: associate when, case-insensitively, the keyword is a
substring of the title or description, or the title or description is a
substring of the keyword. -/
def specMatchesKeyword (r : Requirement) (k : String) : Bool :=
  strIncludes r.title k || strIncludes r.description k ||
    strIncludes k r.title || strIncludes k r.description

/-- A requirement whose title is exactly one fallback responsibility. -/
def reqBiz : Requirement :=
  { id := "R1", rtype := "functional", title := "Business logic", description := "" }

/-- A requirement whose short title is contained in a keyword but contains
none of the keyword. -/
def reqAuth : Requirement :=
  { id := "R1", rtype := "functional", title := "Auth", description := "x" }

/-- Scenario-B style requirement. -/
def reqLogin : Requirement :=
  { id := "US-00001", rtype := "functional", title := "User login"
    description := "user authenticates" }

/-- Minimal Level-1 context for fixtures. -/
def emptyL1 : Level1Context :=
  { system := { name := "S", description := "d", scope := "sc" }
    people := [], external_systems := [], relationships := [] }

/-- A wholly absent parsed response (`JSON.parse` of `{}`). -/
def rawEmpty : RawExtracted := {}

/-- A container whose sole responsibility keyword strictly contains `Auth`. -/
def authContainer : ArchitectureContainer :=
  { id := "auth", name := "Auth Service", type := "Service", technology := "TS"
    description := "authentication container"
    responsibilities := ["authentication"], dependencies := none }

/-- Architecture with only `authContainer`. -/
def archAuth : ExtractedArchitecture :=
  { level1_context := emptyL1, level2_containers := [authContainer]
    level2_relationships := [], level3_components := [], level3_relationships := [] }

/-- Architecture whose single Level-2 relationship joins two undeclared ids. -/
def archGhost : ExtractedArchitecture :=
  { level1_context := emptyL1, level2_containers := []
    level2_relationships := [{ fromId := "ghost", toId := "nowhere", label := "x" }]
    level3_components := [], level3_relationships := [] }

/-- Components of the scenario-B fixture. -/
def loginUI : ArchitectureComponent :=
  { id := "login-ui", name := "Login UI", type := "UI", technology := "React"
    description := "login form", capabilities := ["login"] }

/-- Second component of the scenario-B fixture. -/
def authAPI : ArchitectureComponent :=
  { id := "auth-api", name := "Auth API", type := "API", technology := "Node"
    description := "auth backend", capabilities := ["token"] }

/-- Architecture with one container owning two components and one
component-level relationship. -/
def archB : ExtractedArchitecture :=
  { level1_context := emptyL1
    level2_containers := [authContainer]
    level2_relationships := []
    level3_components := [("auth", [loginUI, authAPI])]
    level3_relationships :=
      [("auth", [{ fromId := "login-ui", toId := "auth-api", label := "calls" }])] }

/-- Architecture whose component map is keyed by an undeclared container id. -/
def archGhostComp : ExtractedArchitecture :=
  { level1_context := emptyL1
    level2_containers := [authContainer]
    level2_relationships := []
    level3_components := [("ghost", [loginUI])]
    level3_relationships := [] }

/-- Externally connected and unconnected systems for the Level-2 inclusion
rule. -/
def extPay : ArchitectureExternalSystem :=
  { id := "payments", name := "Payments", type := "external"
    description := "payment provider", protocol := some ("HTTPS") }

/-- An external system referenced by no Level-2 relationship. -/
def extMail : ArchitectureExternalSystem :=
  { id := "mail", name := "Mail", type := "external", description := "mailer" }

/-- Architecture with one connected and one unconnected external system. -/
def archExt : ExtractedArchitecture :=
  { level1_context :=
      { system := { name := "S", description := "d", scope := "sc" }
        people := [], external_systems := [extPay, extMail], relationships := [] }
    level2_containers := []
    level2_relationships := [{ fromId := "webapp", toId := "payments", label := "pays" }]
    level3_components := [], level3_relationships := [] }

/-- Index entry of the Level-1 diagram. -/
def idxL1 : IndexEntry :=
  { id := "level1-context", level := 1, type := DiagType.context
    title := "System Context Diagram" }

/-- Index entry of the Level-2 diagram. -/
def idxL2 : IndexEntry :=
  { id := "level2-containers", level := 2, type := DiagType.container
    title := "Container Diagram", parentId := some ("main-system") }

/-- A store whose index references a diagram body that is not on disk. -/
def storeMissingBody : C4Store :=
  { dirExists := true, index := some [idxL1], bodies := [] }

/-- Some persisted diagram body. -/
def dummyDiagram : C4Diagram :=
  buildLevel1Diagram (getFallbackArchitecture []) [] "t0"

/-- A store indexing two diagrams of which only one body exists. -/
def storeTwoEntries : C4Store :=
  { dirExists := true, index := some [idxL1, idxL2]
    bodies := [("level1-context", dummyDiagram)] }

/-- C1 counterexample: with the adapter failing, a requirement whose title
is exactly the fallback responsibility `Business logic` ends up in the
`api` container's requirement ids, so the fallback result is not
requirement-independent and container requirement ids are not always
empty (the fallback containers do carry responsibilities). -/
theorem c1_counterexample :
    (generateC4Diagrams AdapterOutcome.failure [reqBiz] "t").toOption.map
      (fun ds => ds.map (fun d => d.elements.map C4Element.requirements)) =
    some [[["R1"], []], [[], ["R1"]]] := by
  decide

/-- C1 (amended): on adapter failure, `generate()` returns exactly one
Level-1 and one Level-2 diagram (and no Level-3 diagram) with the fixed
fallback structure — person `user`, system `main-system`, containers
`webapp` and `api` joined by `Makes API calls` — but the requirement-id
associations do depend on the requirements: the system element carries
every requirement id and each container carries the ids matched by the
heuristic against the fallback responsibilities (`Display UI`,
`Handle user input`, `Business logic`, `Data access`). -/
theorem c1_fallback_shape (reqs : List Requirement) (now : String) (h : reqs ≠ []) :
    ∃ d1 d2,
      generateC4Diagrams AdapterOutcome.failure reqs now = Except.ok [d1, d2] ∧
      d1.level = 1 ∧ d2.level = 2 ∧
      d1.elements.map C4Element.id = ["main-system", "user"] ∧
      d1.relationships.map (fun r => (r.fromId, r.toId, r.label)) =
        [("user", "main-system", "Uses")] ∧
      d2.elements.map (fun e => (e.id, e.type)) =
        [("webapp", ElemType.container), ("api", ElemType.container)] ∧
      d2.relationships.map (fun r => (r.fromId, r.toId, r.label)) =
        [("webapp", "api", "Makes API calls")] ∧
      d1.elements.map C4Element.requirements = [reqs.map Requirement.id, []] ∧
      d2.elements.map C4Element.requirements =
        (getFallbackArchitecture reqs).level2_containers.map
          (containerRequirements reqs) := by
  exact ⟨_, _, rfl, rfl, rfl, rfl, rfl, rfl, rfl, rfl, rfl⟩

/-- C1 witness: the amended statement evaluated at a singleton requirement
list. -/
theorem c1_fallback_shape_witness :
    (([reqBiz] : List Requirement) ≠ []) ∧
    (∃ d1 d2,
      generateC4Diagrams AdapterOutcome.failure [reqBiz] "t" = Except.ok [d1, d2] ∧
      d1.level = 1 ∧ d2.level = 2 ∧
      d1.elements.map C4Element.id = ["main-system", "user"] ∧
      d1.relationships.map (fun r => (r.fromId, r.toId, r.label)) =
        [("user", "main-system", "Uses")] ∧
      d2.elements.map (fun e => (e.id, e.type)) =
        [("webapp", ElemType.container), ("api", ElemType.container)] ∧
      d2.relationships.map (fun r => (r.fromId, r.toId, r.label)) =
        [("webapp", "api", "Makes API calls")] ∧
      d1.elements.map C4Element.requirements = [[reqBiz].map Requirement.id, []] ∧
      d2.elements.map C4Element.requirements =
        (getFallbackArchitecture [reqBiz]).level2_containers.map
          (containerRequirements [reqBiz])) :=
  ⟨by decide, c1_fallback_shape [reqBiz] "t" (by decide)⟩

/-- C2 counterexample: a successfully parsed but structurally empty
response (`{}`) is not routed to the fallback — `generate()` throws — while
an adapter failure with the same requirements succeeds with the two
fallback diagrams, so the two cases are not treated identically. -/
theorem c2_counterexample :
    generateC4Diagrams (AdapterOutcome.success rawEmpty) [reqBiz] "t" =
      Except.error ("TypeError") ∧
    (generateC4Diagrams AdapterOutcome.failure [reqBiz] "t").toOption.map
      List.length = some 2 :=
  ⟨rfl, rfl⟩

/-- C2 (amended): only a thrown adapter error (request failure or a
response that fails to parse) is replaced by the fallback architecture; a
parsed response is passed through with no structural check, and when it is
missing an object or array the builders dereference, `generate()` fails
with a TypeError instead of substituting the fallback. -/
theorem c2_no_normalization (reqs : List Requirement) (now : String)
    (raw : RawExtracted) (h : rawToArch raw = none) :
    extractArchitecture AdapterOutcome.failure reqs =
      rawOfArch (getFallbackArchitecture reqs) ∧
    extractArchitecture (AdapterOutcome.success raw) reqs = raw ∧
    generateC4Diagrams (AdapterOutcome.success raw) reqs now =
      Except.error ("TypeError") ∧
    (∃ ds, generateC4Diagrams AdapterOutcome.failure reqs now = Except.ok ds ∧
      ds.length = 2) := by
  refine ⟨rfl, rfl, ?_, ⟨_, rfl, rfl⟩⟩
  simp [generateC4Diagrams, extractArchitecture, h]

/-- C2 witness: the amended statement at the empty parsed response. -/
theorem c2_no_normalization_witness :
    rawToArch rawEmpty = none ∧
    (extractArchitecture AdapterOutcome.failure [reqBiz] =
      rawOfArch (getFallbackArchitecture [reqBiz]) ∧
    extractArchitecture (AdapterOutcome.success rawEmpty) [reqBiz] = rawEmpty ∧
    generateC4Diagrams (AdapterOutcome.success rawEmpty) [reqBiz] "t" =
      Except.error ("TypeError") ∧
    (∃ ds, generateC4Diagrams AdapterOutcome.failure [reqBiz] "t" = Except.ok ds ∧
      ds.length = 2)) :=
  ⟨rfl, c2_no_normalization [reqBiz] "t" rawEmpty rfl⟩

/-- C7 counterexample: `generate()` called with the empty requirement list
does not fail — with a failing adapter it still returns the two fallback
diagrams, and the adapter outcome is consulted (a parsed-empty response
makes the same call throw), so extraction is attempted rather than
rejected beforehand. -/
theorem c7_counterexample :
    (generateC4Diagrams AdapterOutcome.failure [] "t").toOption.map
      List.length = some 2 ∧
    generateC4Diagrams (AdapterOutcome.success rawEmpty) [] "t" =
      Except.error ("TypeError") :=
  ⟨rfl, rfl⟩

/-- C7 (amended): `generate()` performs no validation of the requirement
list: the empty list flows through extraction like any other input, and on
adapter failure the run succeeds with the fallback Level-1 and Level-2
diagrams whose requirement references are empty. -/
theorem c7_no_input_validation (now : String) :
    ∃ d1 d2,
      generateC4Diagrams AdapterOutcome.failure [] now = Except.ok [d1, d2] ∧
      d1.level = 1 ∧ d2.level = 2 ∧
      d1.requirementReferences = [] ∧ d2.requirementReferences = [] := by
  exact ⟨_, _, rfl, rfl, rfl, rfl, rfl⟩

/-- C3 counterexample: keyword `authentication` and requirement title
`Auth` — the title is a substring of the keyword, so the claimed
bidirectional heuristic would associate them, but the source's test (and
hence the container built from it) does not. -/
theorem c3_counterexample :
    reqMatchesKeyword reqAuth ("authentication") = false ∧
    specMatchesKeyword reqAuth ("authentication") = true ∧
    (buildLevel2Diagrams archAuth [reqAuth] "t").map
      (fun d => d.elements.map C4Element.requirements) = [[[]]] := by
  decide

/-- Membership in the `filter`-then-`map`-to-id shape both traceability
functions produce, under distinct requirement ids. -/
theorem mem_filter_map_id (reqs : List Requirement) (p : Requirement → Bool)
    (r : Requirement) (hmem : r ∈ reqs) (hnd : (reqs.map Requirement.id).Nodup) :
    r.id ∈ (reqs.filter p).map Requirement.id ↔ p r = true := by
  constructor
  · intro hx
    obtain ⟨r', hr', hid⟩ := List.mem_map.mp hx
    obtain ⟨hr'mem, hp⟩ := List.mem_filter.mp hr'
    have heq : r' = r := List.inj_on_of_nodup_map hnd hr'mem hmem hid
    rwa [heq] at hp
  · intro hp
    exact List.mem_map.mpr ⟨r, List.mem_filter.mpr ⟨hmem, hp⟩, rfl⟩

/-- The id list produced by the traceability shape has no duplicates when
the input requirement ids have none. -/
theorem nodup_filter_map_id (reqs : List Requirement) (p : Requirement → Bool)
    (hnd : (reqs.map Requirement.id).Nodup) :
    ((reqs.filter p).map Requirement.id).Nodup :=
  hnd.sublist ((List.filter_sublist reqs).map Requirement.id)

/-- C3 (amended): the heuristic is one-directional — a requirement is
associated with an element exactly when some keyword is, case-insensitively,
a substring of the requirement's title or description (the reverse
containment of the claim does not apply) — and, for distinct input
requirement ids, an element's requirement ids are the duplicate-free list
of exactly the matching ids. -/
theorem c3_one_directional (reqs : List Requirement) (r : Requirement)
    (c : ArchitectureContainer) (comp : ArchitectureComponent) (k : String)
    (hmem : r ∈ reqs) (hnd : (reqs.map Requirement.id).Nodup) :
    (reqMatchesKeyword r k = true ↔
      (lowerChars k <:+: lowerChars r.title ∨
        lowerChars k <:+: lowerChars r.description)) ∧
    (r.id ∈ containerRequirements reqs c ↔
      ∃ resp ∈ c.responsibilities, reqMatchesKeyword r resp = true) ∧
    (r.id ∈ componentRequirements reqs comp ↔
      ∃ cap ∈ comp.capabilities, reqMatchesKeyword r cap = true) ∧
    (containerRequirements reqs c).Nodup ∧
    (componentRequirements reqs comp).Nodup := by
  refine ⟨?_, ?_, ?_, ?_, ?_⟩
  · simp [reqMatchesKeyword, strIncludes]
  · exact (mem_filter_map_id reqs _ r hmem hnd).trans (by simp [List.any_eq_true])
  · exact (mem_filter_map_id reqs _ r hmem hnd).trans (by simp [List.any_eq_true])
  · exact nodup_filter_map_id reqs _ hnd
  · exact nodup_filter_map_id reqs _ hnd

/-- C3 witness: the amended statement at the `Auth`/`authentication`
fixture. -/
theorem c3_one_directional_witness :
    (reqAuth ∈ [reqAuth] ∧ ([reqAuth].map Requirement.id).Nodup) ∧
    ((reqMatchesKeyword reqAuth ("authentication") = true ↔
      (lowerChars ("authentication") <:+: lowerChars reqAuth.title ∨
        lowerChars ("authentication") <:+: lowerChars reqAuth.description)) ∧
    (reqAuth.id ∈ containerRequirements [reqAuth] authContainer ↔
      ∃ resp ∈ authContainer.responsibilities,
        reqMatchesKeyword reqAuth resp = true) ∧
    (reqAuth.id ∈ componentRequirements [reqAuth] loginUI ↔
      ∃ cap ∈ loginUI.capabilities, reqMatchesKeyword reqAuth cap = true) ∧
    (containerRequirements [reqAuth] authContainer).Nodup ∧
    (componentRequirements [reqAuth] loginUI).Nodup) :=
  ⟨⟨by decide, by decide⟩,
    c3_one_directional [reqAuth] reqAuth authContainer loginUI ("authentication")
      (by decide) (by decide)⟩

/-- Membership characterization of `buildLevel3Diagrams`: a produced
diagram comes from a component-map entry with a non-empty component list
whose key matches a declared container. -/
theorem mem_buildLevel3_iff (arch : ExtractedArchitecture) (reqs : List Requirement)
    (now : String) (d : C4Diagram) :
    d ∈ buildLevel3Diagrams arch reqs now ↔
      ∃ entry ∈ arch.level3_components, entry.2.isEmpty = false ∧
        ∃ container,
          arch.level2_containers.find? (fun c => c.id == entry.1) = some container ∧
          d = level3DiagramFor arch reqs now entry.1 entry.2 container := by
  rw [buildLevel3Diagrams, List.mem_filterMap]
  constructor
  · rintro ⟨entry, hentry, hf⟩
    by_cases hemp : entry.2.isEmpty = true
    · simp [hemp] at hf
    · rw [Bool.not_eq_true] at hemp
      rw [hemp] at hf
      simp only [Bool.false_eq_true, if_false] at hf
      cases hfind : arch.level2_containers.find? (fun c => c.id == entry.1) with
      | none => rw [hfind] at hf; simp at hf
      | some container =>
          rw [hfind] at hf
          simp only [Option.some.injEq] at hf
          exact ⟨entry, hentry, hemp, container, hfind, hf.symm⟩
  · rintro ⟨entry, hentry, hemp, container, hfind, hd⟩
    refine ⟨entry, hentry, ?_⟩
    rw [hemp]
    simp only [Bool.false_eq_true, if_false]
    rw [hfind, hd]

/-- The Level-3 diagram of one entry satisfies the requirement union law. -/
theorem level3DiagramFor_union (arch : ExtractedArchitecture) (reqs : List Requirement)
    (now : String) (cid : String) (comps : List ArchitectureComponent)
    (container : ArchitectureContainer) :
    ∀ x, x ∈ (level3DiagramFor arch reqs now cid comps container).requirementReferences ↔
      ∃ e ∈ (level3DiagramFor arch reqs now cid comps container).elements,
        x ∈ e.requirements := by
  intro x
  constructor
  · intro hx
    simp only [level3DiagramFor, List.mem_map, List.mem_filter] at hx
    obtain ⟨r, ⟨hr, hany⟩, hid⟩ := hx
    obtain ⟨e, he, hcont⟩ := List.any_eq_true.mp hany
    refine ⟨e, by simpa [level3DiagramFor] using he, ?_⟩
    have : r.id ∈ e.requirements := by simpa using hcont
    rwa [hid] at this
  · rintro ⟨e, he, hx⟩
    simp only [level3DiagramFor, List.mem_map] at he
    obtain ⟨comp, hcomp, hce⟩ := he
    have hreq : x ∈ componentRequirements reqs comp := by
      rw [← hce] at hx; simpa [componentElement] using hx
    simp only [componentRequirements, List.mem_map, List.mem_filter] at hreq
    obtain ⟨r, ⟨hr, _⟩, hid⟩ := hreq
    simp only [level3DiagramFor, List.mem_map, List.mem_filter]
    refine ⟨r, ⟨hr, List.any_eq_true.mpr ⟨componentElement reqs comp, ?_, ?_⟩⟩, hid⟩
    · exact List.mem_map.mpr ⟨comp, hcomp, rfl⟩
    · have : r.id ∈ (componentElement reqs comp).requirements := by
        rw [hce, hid]; exact hx
      simpa using this

/-- C4 counterexample: in a fallback run with one requirement matching no
fallback responsibility, the Level-2 diagram's requirement references hold
`R1` while every element's requirement set is empty, so the diagram's
requirement ids are not the union of its elements'. -/
theorem c4_counterexample :
    (buildLevel2Diagrams (getFallbackArchitecture [reqAuth]) [reqAuth] "t").map
      (fun d => (d.requirementReferences, d.elements.map C4Element.requirements)) =
    [(["R1"], [[], []])] := by
  decide

/-- C4 (amended): the union law holds for the Level-1 diagram and for every
Level-3 diagram, but the Level-2 diagram's requirement references are the
full input requirement-id list, a superset of (generally different from)
the union over its elements. -/
theorem c4_union_law_mixed (arch : ExtractedArchitecture) (reqs : List Requirement)
    (now : String) :
    (∀ x, x ∈ (buildLevel1Diagram arch reqs now).requirementReferences ↔
      ∃ e ∈ (buildLevel1Diagram arch reqs now).elements, x ∈ e.requirements) ∧
    (∃ d2, buildLevel2Diagrams arch reqs now = [d2] ∧
      d2.requirementReferences = reqs.map Requirement.id ∧
      ∀ e ∈ d2.elements, ∀ x ∈ e.requirements, x ∈ d2.requirementReferences) ∧
    (∀ d ∈ buildLevel3Diagrams arch reqs now,
      ∀ x, x ∈ d.requirementReferences ↔ ∃ e ∈ d.elements, x ∈ e.requirements) := by
  refine ⟨?_, ?_, ?_⟩
  · intro x
    constructor
    · intro hx
      refine ⟨mainSystemElement arch reqs, by simp [buildLevel1Diagram], ?_⟩
      simpa [mainSystemElement] using (by simpa [buildLevel1Diagram] using hx :
        x ∈ reqs.map Requirement.id)
    · rintro ⟨e, he, hx⟩
      simp only [buildLevel1Diagram, List.mem_cons, List.mem_append,
        List.mem_map] at he
      rcases he with he | ⟨p, _, hpe⟩ | ⟨s, _, hse⟩
      · rw [he] at hx
        simpa [buildLevel1Diagram] using
          (by simpa [mainSystemElement] using hx : x ∈ reqs.map Requirement.id)
      · rw [← hpe] at hx
        simp [personElement] at hx
      · rw [← hse] at hx
        simp [externalSystemElement] at hx
  · refine ⟨_, rfl, rfl, ?_⟩
    intro e he x hx
    simp only [List.mem_append, List.mem_map, List.mem_filter] at he
    rcases he with ⟨c, _, hce⟩ | ⟨s, _, hse⟩
    · rw [← hce] at hx
      have : x ∈ containerRequirements reqs c := by
        simpa [containerElement] using hx
      simp only [containerRequirements, List.mem_map, List.mem_filter] at this
      obtain ⟨r, ⟨hr, _⟩, hid⟩ := this
      simpa using List.mem_map.mpr ⟨r, hr, hid⟩
    · rw [← hse] at hx
      simp [externalSystemElement] at hx
  · intro d hd x
    obtain ⟨entry, _, _, container, _, hde⟩ :=
      (mem_buildLevel3_iff arch reqs now d).mp hd
    rw [hde]
    exact level3DiagramFor_union arch reqs now entry.1 entry.2 container x

/-- C4 witness: the union law instantiated on the Level-3 diagram of the
two-component fixture at `US-00001`. -/
theorem c4_union_law_mixed_witness :
    "US-00001" ∈ (level3DiagramFor archB [reqLogin] "t" "auth" [loginUI, authAPI]
      authContainer).requirementReferences ↔
    ∃ e ∈ (level3DiagramFor archB [reqLogin] "t" "auth" [loginUI, authAPI]
      authContainer).elements, "US-00001" ∈ e.requirements := by
  have hmem : level3DiagramFor archB [reqLogin] "t" "auth" [loginUI, authAPI]
      authContainer ∈ buildLevel3Diagrams archB [reqLogin] "t" := by
    rw [show buildLevel3Diagrams archB [reqLogin] "t" =
      [level3DiagramFor archB [reqLogin] "t" "auth" [loginUI, authAPI]
        authContainer] from rfl]
    exact List.mem_singleton_self _
  exact (c4_union_law_mixed archB [reqLogin] "t").2.2 _ hmem ("US-00001")

/-- C5 counterexample: a Level-2 relationship between two ids declared
nowhere is emitted in the built diagram (whose element list is empty), so
dangling relationships are kept, not dropped. -/
theorem c5_counterexample :
    (buildLevel2Diagrams archGhost [] "t").map
      (fun d => (d.elements.map C4Element.id,
        d.relationships.map (fun r => (r.fromId, r.toId)))) =
    [([], [("ghost", "nowhere")])] := by
  decide

/-- C5 (amended): no endpoint validation happens — every diagram carries
the extracted relationship list verbatim (Level 1 with only the `'system'`
placeholder rewrite, Level 2 and Level 3 as mapped records), so a
relationship whose endpoints resolve to no element of the diagram is
emitted rather than dropped, and closure holds only if the extraction
already provides it. -/
theorem c5_relationships_unchecked (arch : ExtractedArchitecture)
    (reqs : List Requirement) (now : String) :
    ((buildLevel1Diagram arch reqs now).relationships =
      arch.level1_context.relationships.map level1Relationship) ∧
    (∃ d2, buildLevel2Diagrams arch reqs now = [d2] ∧
      d2.relationships = arch.level2_relationships.map level2Relationship) ∧
    (∀ d ∈ buildLevel3Diagrams arch reqs now, ∃ cid,
      d.parentId = some cid ∧
      d.relationships =
        ((alistLookup arch.level3_relationships cid).getD []).map
          level3Relationship) := by
  refine ⟨rfl, ⟨_, rfl, rfl⟩, ?_⟩
  intro d hd
  obtain ⟨entry, _, _, container, _, hde⟩ :=
    (mem_buildLevel3_iff arch reqs now d).mp hd
  exact ⟨entry.1, by rw [hde]; rfl, by rw [hde]; rfl⟩

/-- C5 witness: the Level-1 conjunct evaluated on the dangling-relationship
fixture. -/
theorem c5_relationships_unchecked_witness :
    (buildLevel1Diagram archGhost [] "t").relationships =
      archGhost.level1_context.relationships.map level1Relationship :=
  (c5_relationships_unchecked archGhost [] "t").1

/-- Lemma: `filterMap` keeps exactly the entries on which the function is `some`. -/
theorem length_filterMap_eq_length_filter {α β : Type} (l : List α)
    (f : α → Option β) :
    (l.filterMap f).length = (l.filter (fun a => (f a).isSome)).length := by
  induction l with
  | nil => rfl
  | cons a t ih =>
      cases h : f a <;>
        simp [List.filterMap_cons, List.filter_cons, h, ih]

/-- C6 counterexample: a store whose index references `level1-context` with
no body on disk — `getDiagrams` returns the empty list (its type has no
error channel at all), silently dropping the indexed id instead of failing
with a store-consistency error. -/
theorem c6_counterexample :
    getDiagrams storeMissingBody = [] ∧ storeMissingBody.index = some [idxL1] :=
  ⟨rfl, rfl⟩

/-- C6 (amended): `getDiagrams` never fails — an indexed id whose body
cannot be loaded is silently skipped and the call returns the partial list
of just the loadable bodies, in index order. -/
theorem c6_silent_skip (st : C4Store) (entries : List IndexEntry)
    (h1 : st.dirExists = true) (h2 : st.index = some entries) :
    getDiagrams st = entries.filterMap (fun e => alistLookup st.bodies e.id) ∧
    (getDiagrams st).length =
      (entries.filter (fun e => (alistLookup st.bodies e.id).isSome)).length ∧
    ∀ d ∈ getDiagrams st, ∃ e ∈ entries, alistLookup st.bodies e.id = some d := by
  have hg : getDiagrams st = entries.filterMap (fun e => alistLookup st.bodies e.id) := by
    rw [getDiagrams, h1, h2]
    simp
  refine ⟨hg, ?_, ?_⟩
  · rw [hg]
    exact length_filterMap_eq_length_filter entries _
  · intro d hd
    rw [hg] at hd
    exact List.mem_filterMap.mp hd

/-- C6 witness: the amended statement on a store with one loadable and one
missing body. -/
theorem c6_silent_skip_witness :
    (storeTwoEntries.dirExists = true ∧ storeTwoEntries.index = some [idxL1, idxL2]) ∧
    (getDiagrams storeTwoEntries =
      [idxL1, idxL2].filterMap (fun e => alistLookup storeTwoEntries.bodies e.id) ∧
    (getDiagrams storeTwoEntries).length =
      ([idxL1, idxL2].filter
        (fun e => (alistLookup storeTwoEntries.bodies e.id).isSome)).length ∧
    ∀ d ∈ getDiagrams storeTwoEntries,
      ∃ e ∈ [idxL1, idxL2], alistLookup storeTwoEntries.bodies e.id = some d) :=
  ⟨⟨rfl, rfl⟩, c6_silent_skip storeTwoEntries [idxL1, idxL2] rfl rfl⟩

/-- C8 (confirmed): with the component map's keys unique (as JS object keys
are), every container whose Level-2 element has a non-empty child list has
exactly one Level-3 diagram whose parent is that container and whose
element ids are exactly those children. -/
theorem c8_child_parent_consistency (arch : ExtractedArchitecture)
    (reqs : List Requirement) (now : String)
    (hnd : (arch.level3_components.map Prod.fst).Nodup)
    (container : ArchitectureContainer) (hc : container ∈ arch.level2_containers)
    (cids : List String)
    (hcids : (containerElement arch reqs container).children = some cids)
    (hne : cids ≠ []) :
    (∃ d2, buildLevel2Diagrams arch reqs now = [d2] ∧
      containerElement arch reqs container ∈ d2.elements) ∧
    ∃ d3 ∈ buildLevel3Diagrams arch reqs now,
      d3.parentId = some container.id ∧
      d3.elements.map C4Element.id = cids ∧
      ∀ d3' ∈ buildLevel3Diagrams arch reqs now,
        d3'.parentId = some container.id → d3' = d3 := by
  have h0 : (((alistLookup arch.level3_components container.id).map
      (fun comps => comps.map ArchitectureComponent.id)).getD []) = cids := by
    simpa [containerElement] using hcids
  obtain ⟨comps, hL, hmapids⟩ :
      ∃ comps, alistLookup arch.level3_components container.id = some comps ∧
        comps.map ArchitectureComponent.id = cids := by
    cases hLc : alistLookup arch.level3_components container.id with
    | none => rw [hLc] at h0; simp at h0; exact absurd h0 hne
    | some comps => rw [hLc] at h0; simp at h0; exact ⟨comps, rfl, h0⟩
  obtain ⟨entry, hf, hsnd⟩ :
      ∃ entry, arch.level3_components.find? (fun p => p.1 == container.id) =
        some entry ∧ entry.2 = comps := by
    rw [alistLookup] at hL
    cases hfc : arch.level3_components.find? (fun p => p.1 == container.id) with
    | none => rw [hfc] at hL; simp at hL
    | some entry => rw [hfc] at hL; simp at hL; exact ⟨entry, rfl, hL⟩
  have hentrymem : entry ∈ arch.level3_components := List.mem_of_find?_eq_some hf
  have hkeyeq : entry.1 = container.id := by
    have := List.find?_some hf
    simpa using this
  have hcompsne : entry.2.isEmpty = false := by
    rw [hsnd]
    cases comps with
    | nil => simp at hmapids; exact absurd hmapids hne
    | cons a t => rfl
  obtain ⟨container', hfind⟩ : ∃ c,
      arch.level2_containers.find? (fun c => c.id == entry.1) = some c := by
    have hs : (arch.level2_containers.find? (fun c => c.id == entry.1)).isSome :=
      List.find?_isSome.mpr ⟨container, hc, by simp [hkeyeq]⟩
    exact Option.isSome_iff_exists.mp hs
  refine ⟨⟨_, rfl, List.mem_append_left _ (List.mem_map.mpr ⟨container, hc, rfl⟩)⟩,
    level3DiagramFor arch reqs now entry.1 entry.2 container',
    (mem_buildLevel3_iff arch reqs now _).mpr
      ⟨entry, hentrymem, hcompsne, container', hfind, rfl⟩, ?_, ?_, ?_⟩
  · show some entry.1 = some container.id
    rw [hkeyeq]
  · show (entry.2.map (componentElement reqs)).map C4Element.id = cids
    rw [List.map_map, hsnd, ← hmapids]
    rfl
  · intro d3' hd3' hpar
    obtain ⟨entry', hentry'mem, hne', container'', hfind'', hd3'e⟩ :=
      (mem_buildLevel3_iff arch reqs now d3').mp hd3'
    have hpar' : entry'.1 = container.id := by
      rw [hd3'e] at hpar
      exact Option.some.inj hpar
    have hee : entry' = entry :=
      List.inj_on_of_nodup_map hnd hentry'mem hentrymem (by rw [hpar', hkeyeq])
    rw [hee] at hfind''
    have hcc : container'' = container' := by
      rw [hfind''] at hfind
      exact Option.some.inj hfind
    rw [hd3'e, hee, hcc]

/-- C8 witness: the consistency statement on the two-component fixture. -/
theorem c8_child_parent_consistency_witness :
    (∃ d2, buildLevel2Diagrams archB [reqLogin] "t" = [d2] ∧
      containerElement archB [reqLogin] authContainer ∈ d2.elements) ∧
    ∃ d3 ∈ buildLevel3Diagrams archB [reqLogin] "t",
      d3.parentId = some authContainer.id ∧
      d3.elements.map C4Element.id = ["login-ui", "auth-api"] ∧
      ∀ d3' ∈ buildLevel3Diagrams archB [reqLogin] "t",
        d3'.parentId = some authContainer.id → d3' = d3 :=
  c8_child_parent_consistency archB [reqLogin] "t" (by decide) authContainer
    (by decide) ["login-ui", "auth-api"] rfl (by decide)

/-- C9 (confirmed): an external system appears as an element of the Level-2
diagram exactly when its id is an endpoint of some Level-2 relationship,
and every external system appears in the Level-1 diagram. -/
theorem c9_external_inclusion (arch : ExtractedArchitecture)
    (reqs : List Requirement) (now : String) (sys : ArchitectureExternalSystem)
    (hsys : sys ∈ arch.level1_context.external_systems) :
    ∃ d2, buildLevel2Diagrams arch reqs now = [d2] ∧
      ((∃ e ∈ d2.elements, e.id = sys.id ∧ e.type = ElemType.system) ↔
        ∃ rel ∈ arch.level2_relationships,
          rel.fromId = sys.id ∨ rel.toId = sys.id) ∧
      (∃ e ∈ (buildLevel1Diagram arch reqs now).elements,
        e.id = sys.id ∧ e.type = ElemType.system) := by
  refine ⟨_, rfl, ?_, ?_⟩
  · constructor
    · rintro ⟨e, he, hid, htype⟩
      have he' : e ∈ arch.level2_containers.map (containerElement arch reqs) ++
          (arch.level1_context.external_systems.filter
            (fun s => isLevel2Endpoint arch s.id)).map externalSystemElement := he
      rcases List.mem_append.mp he' with hL | hR
      · obtain ⟨c, _, hce⟩ := List.mem_map.mp hL
        rw [← hce] at htype
        simp [containerElement] at htype
      · obtain ⟨s', hs', hse⟩ := List.mem_map.mp hR
        obtain ⟨_, hcond⟩ := List.mem_filter.mp hs'
        have hsid : s'.id = sys.id := by
          rw [← hse] at hid
          simpa [externalSystemElement] using hid
        have hany : ∃ rel ∈ arch.level2_relationships,
            rel.fromId = s'.id ∨ rel.toId = s'.id := by
          simpa [isLevel2Endpoint] using hcond
        obtain ⟨rel, hrelmem, hor⟩ := hany
        refine ⟨rel, hrelmem, ?_⟩
        rw [← hsid]
        exact hor
    · rintro ⟨rel, hrel, hor⟩
      refine ⟨externalSystemElement sys, ?_, rfl, rfl⟩
      refine List.mem_append_right _ (List.mem_map.mpr ⟨sys, ?_, rfl⟩)
      refine List.mem_filter.mpr ⟨hsys, ?_⟩
      simp only [isLevel2Endpoint]
      exact List.any_eq_true.mpr ⟨rel, hrel, by simpa using hor⟩
  · refine ⟨externalSystemElement sys, ?_, rfl, rfl⟩
    exact List.mem_cons_of_mem _
      (List.mem_append_right _ (List.mem_map.mpr ⟨sys, hsys, rfl⟩))

/-- C9 witness: the inclusion rule on the fixture with one connected and
one unconnected external system, at the connected one. -/
theorem c9_external_inclusion_witness :
    ∃ d2, buildLevel2Diagrams archExt [] "t" = [d2] ∧
      ((∃ e ∈ d2.elements, e.id = extPay.id ∧ e.type = ElemType.system) ↔
        ∃ rel ∈ archExt.level2_relationships,
          rel.fromId = extPay.id ∨ rel.toId = extPay.id) ∧
      (∃ e ∈ (buildLevel1Diagram archExt [] "t").elements,
        e.id = extPay.id ∧ e.type = ElemType.system) :=
  c9_external_inclusion archExt [] "t" extPay (by decide)

/-- C10 (confirmed): every produced Level-3 diagram's parent is the key of
a non-empty component-map entry that is also a declared container id, and a
component-map entry keyed by an undeclared container id yields no Level-3
diagram. -/
theorem c10_parent_declared (arch : ExtractedArchitecture)
    (reqs : List Requirement) (now : String) :
    (∀ d ∈ buildLevel3Diagrams arch reqs now,
      ∃ entry ∈ arch.level3_components,
        d.parentId = some entry.1 ∧ entry.2 ≠ [] ∧
        ∃ c ∈ arch.level2_containers, c.id = entry.1) ∧
    (∀ entry ∈ arch.level3_components,
      (∀ c ∈ arch.level2_containers, c.id ≠ entry.1) →
      ∀ d ∈ buildLevel3Diagrams arch reqs now, d.parentId ≠ some entry.1) := by
  constructor
  · intro d hd
    obtain ⟨entry, hentry, hemp, container, hfind, hde⟩ :=
      (mem_buildLevel3_iff arch reqs now d).mp hd
    refine ⟨entry, hentry, by rw [hde]; rfl, ?_, container,
      List.mem_of_find?_eq_some hfind, by simpa using List.find?_some hfind⟩
    intro hc
    rw [hc] at hemp
    simp at hemp
  · intro entry _ hnone d hd hpar
    obtain ⟨entry', _, _, container'', hfind'', hde⟩ :=
      (mem_buildLevel3_iff arch reqs now d).mp hd
    have h1 : entry'.1 = entry.1 := by
      rw [hde] at hpar
      exact Option.some.inj hpar
    have h2 : container''.id = entry'.1 := by simpa using List.find?_some hfind''
    exact hnone container'' (List.mem_of_find?_eq_some hfind'') (h2.trans h1)

/-- C10 witness: the declared-parent statement on the Level-3 diagram of
the two-component fixture. -/
theorem c10_parent_declared_witness :
    ∃ entry ∈ archB.level3_components,
      (level3DiagramFor archB [reqLogin] "t" "auth" [loginUI, authAPI]
        authContainer).parentId = some entry.1 ∧ entry.2 ≠ [] ∧
      ∃ c ∈ archB.level2_containers, c.id = entry.1 := by
  have hmem : level3DiagramFor archB [reqLogin] "t" "auth" [loginUI, authAPI]
      authContainer ∈ buildLevel3Diagrams archB [reqLogin] "t" := by
    rw [show buildLevel3Diagrams archB [reqLogin] "t" =
      [level3DiagramFor archB [reqLogin] "t" "auth" [loginUI, authAPI]
        authContainer] from rfl]
    exact List.mem_singleton_self _
  exact (c10_parent_declared archB [reqLogin] "t").1 _ hmem
